import Mathlib

/-
Verification of the EER load-shape scaling pipeline.

This file gives a shallow embedding of the two numerical components of the
repository: the scaling-factor resolver and profile scaler of
`UCS_load_profile_scaling/main.py`, and the cross-year rescaling loop of
`scripts/generate_scenarios.py`.  Numeric values (pandas floats) are
modelled as rationals, years as integers, tables as lists of rows whose
per-state values are functions from column name to value.  Python's
truncating integer cast (`int(...)` / `.astype(int)`) is modelled by
`truncQ`, truncation toward zero.
-/

/-- Truncation toward zero of a rational number, modelling the semantics of
Python's `int(...)` and numpy's `.astype(int)` applied to a float value. -/
def truncQ (q : ℚ) : ℤ := if 0 ≤ q then ⌊q⌋ else ⌈q⌉

/-- Row of the control-totals table (`scaling_inputs_MWh.csv`): the three key
columns `scenario, subsector_group, year` followed by one numeric value per
state column, modelled as a function from column name to value. -/
structure CTRow where
  scenario : String
  subsector_group : String
  year : ℤ
  vals : String → ℚ

/-- Control-totals table: `stateCols` models `scaling_inputs.columns[3:]`,
the column names after `scenario, subsector_group, year`. -/
structure ScalingInputs where
  stateCols : List String
  rows : List CTRow

/-- Warnings printed by `interpolate_scaling_factors`, modelled as tags. -/
inductive RWarning where
  | noData
  | beforeRange
  | afterRange
deriving DecidableEq

/-- Result of the resolver: the per-state factor map (an association list
keyed by state column, in column order) together with the warning, if any,
that the function prints on that path. -/
structure ResolveResult where
  factors : List (String × ℚ)
  warning : Option RWarning

/-- Junk row used as the default of `List.getD`/`Option.getD`; reachable
code paths of the source never select it. -/
def defaultCTRow : CTRow := ⟨"", "", 0, fun _ => 0⟩

/-- Rows of the control totals matching the scenario and subsector group;
models the boolean-mask filter at the top of `interpolate_scaling_factors`. -/
def scenarioData (si : ScalingInputs) (scenario subsector_group : String) : List CTRow :=
  si.rows.filter (fun r => r.scenario == scenario && r.subsector_group == subsector_group)

/-- Distinct years present for this (scenario, subsector group); models
`sorted(scenario_data['year'].unique())` (only its membership, minimum and
maximum are ever used). -/
def inputYears (si : ScalingInputs) (scenario subsector_group : String) : List ℤ :=
  ((scenarioData si scenario subsector_group).map (fun r => r.year)).dedup

/-- First matching row for a given year; models
`scenario_data[scenario_data['year'] == y].iloc[0]`. -/
def yearRow (si : ScalingInputs) (scenario subsector_group : String) (y : ℤ) : CTRow :=
  ((scenarioData si scenario subsector_group).find? (fun r => r.year == y)).getD defaultCTRow

/-- Earliest input year, `min(input_years)`. -/
def minYear (si : ScalingInputs) (scenario subsector_group : String) : ℤ :=
  ((inputYears si scenario subsector_group).min?).getD 0

/-- Latest input year, `max(input_years)`. -/
def maxYear (si : ScalingInputs) (scenario subsector_group : String) : ℤ :=
  ((inputYears si scenario subsector_group).max?).getD 0

/-- Largest input year below the target,
`max([y for y in input_years if y < target_year])`. -/
def lowerYear (si : ScalingInputs) (scenario subsector_group : String) (target_year : ℤ) : ℤ :=
  (((inputYears si scenario subsector_group).filter (fun y => decide (y < target_year))).max?).getD 0

/-- Smallest input year above the target,
`min([y for y in input_years if y > target_year])`. -/
def upperYear (si : ScalingInputs) (scenario subsector_group : String) (target_year : ℤ) : ℤ :=
  (((inputYears si scenario subsector_group).filter (fun y => decide (target_year < y))).min?).getD 0

/-- Embedding of `interpolate_scaling_factors` from
`UCS_load_profile_scaling/main.py`.  The `available_years` argument is kept
from the source signature; the source body never reads it.  Branches follow
the source exactly: empty filter, exact year match, clamping below or above
the known range, and linear interpolation between the two closest years. -/
def interpolate_scaling_factors (si : ScalingInputs) (scenario subsector_group : String)
    (target_year : ℤ) (available_years : List ℤ) : ResolveResult :=
  if (scenarioData si scenario subsector_group).isEmpty then
    ⟨si.stateCols.map (fun s => (s, (1 : ℚ))), some RWarning.noData⟩
  else if target_year ∈ inputYears si scenario subsector_group then
    ⟨si.stateCols.map (fun s =>
        (s, (yearRow si scenario subsector_group target_year).vals s)), none⟩
  else if target_year < minYear si scenario subsector_group then
    ⟨si.stateCols.map (fun s =>
        (s, (yearRow si scenario subsector_group (minYear si scenario subsector_group)).vals s)),
      some RWarning.beforeRange⟩
  else if maxYear si scenario subsector_group < target_year then
    ⟨si.stateCols.map (fun s =>
        (s, (yearRow si scenario subsector_group (maxYear si scenario subsector_group)).vals s)),
      some RWarning.afterRange⟩
  else
    ⟨si.stateCols.map (fun s =>
        (s, (yearRow si scenario subsector_group
              (lowerYear si scenario subsector_group target_year)).vals s
          + (((target_year : ℚ) - ((lowerYear si scenario subsector_group target_year : ℤ) : ℚ))
              / (((upperYear si scenario subsector_group target_year : ℤ) : ℚ)
                  - ((lowerYear si scenario subsector_group target_year : ℤ) : ℚ)))
            * ((yearRow si scenario subsector_group
                  (upperYear si scenario subsector_group target_year)).vals s
                - (yearRow si scenario subsector_group
                    (lowerYear si scenario subsector_group target_year)).vals s))), none⟩

/-- Dictionary lookup `scaling_factors[state]` guarded by
`state in scaling_factors`, on the association-list model of the map. -/
def lookupFactor (factors : List (String × ℚ)) (s : String) : Option ℚ :=
  (factors.find? (fun kv => kv.1 == s)).map (fun kv => kv.2)

/-- Row of the hourly profile table: key columns `sector, subsector,
weather_datetime` followed by one numeric value per state column. -/
structure PRow where
  sector : String
  subsector : String
  weather_datetime : String
  vals : String → ℚ

/-- Hourly profile table; `stateCols` models the list
`[col for col in df.columns if col not in ['sector','subsector','weather_datetime']]`. -/
structure Profile where
  stateCols : List String
  rows : List PRow

/-- Junk row used as the default of `List.getD`; never selected when the
index is in range. -/
def defaultPRow : PRow := ⟨"", "", "", fun _ => 0⟩

/-- Member subsector labels of a group,
`[s.strip() for s in subsector_group.split(',')]`. -/
def subsectorsOf (subsector_group : String) : List String :=
  (subsector_group.splitOn ",").map (fun s => s.trim)

/-- Group mask `df['subsector'].isin(subsectors)`, as a per-row predicate. -/
def maskFn (subsector_group : String) (r : PRow) : Bool :=
  (subsectorsOf subsector_group).contains r.subsector

/-- Sum of one state's values over the masked rows,
`scaled_df.loc[mask, state].sum()`. -/
def groupSum (p : Profile) (subsector_group s : String) : ℚ :=
  ((p.rows.filter (fun r => maskFn subsector_group r)).map (fun r => r.vals s)).sum

/-- Number of masked rows, `mask.sum()`. -/
def numRows (p : Profile) (subsector_group : String) : ℕ :=
  (p.rows.filter (fun r => maskFn subsector_group r)).length

/-- Value of state column `s` in one row of the output of `scale_profile`.
Only masked rows are assigned to; for them the source distinguishes the
zero-to-positive case (`group_sum == 0 and scaling_factor > 0`, distribute
`int(scaling_factor / num_rows)` if there are rows) from the normal case
(`group_sum != 0`, truncate `value * scaling_factor / group_sum`), leaving
the value alone otherwise.  Group sums are read from the unmodified column,
as in the source, where each loop iteration writes only its own column. -/
def scaledValue (p : Profile) (factors : List (String × ℚ))
    (subsector_group s : String) (r : PRow) : ℚ :=
  if maskFn subsector_group r then
    if s ∈ p.stateCols then
      match lookupFactor factors s with
      | some f =>
        if groupSum p subsector_group s = 0 ∧ 0 < f then
          if 0 < numRows p subsector_group then
            ((truncQ (f / ((numRows p subsector_group : ℕ) : ℚ)) : ℤ) : ℚ)
          else r.vals s
        else
          if groupSum p subsector_group s ≠ 0 then
            ((truncQ (r.vals s * (f / groupSum p subsector_group s)) : ℤ) : ℚ)
          else r.vals s
      | none => r.vals s
    else r.vals s
  else r.vals s

/-- Rewrite of one row by `scale_profile`: key columns are untouched, each
state column is rewritten by `scaledValue`. -/
def applyRow (p : Profile) (factors : List (String × ℚ)) (subsector_group : String)
    (r : PRow) : PRow :=
  ⟨r.sector, r.subsector, r.weather_datetime, fun s => scaledValue p factors subsector_group s r⟩

/-- Embedding of `scale_profile` from `UCS_load_profile_scaling/main.py`.
The source copies the input dataframe (`df.copy()`) and mutates the copy;
here the function simply returns the rewritten table, so the immutability
of the input is inherent in the embedding. -/
def scale_profile (p : Profile) (factors : List (String × ℚ)) (subsector_group : String) :
    Profile :=
  ⟨p.stateCols, p.rows.map (fun r => applyRow p factors subsector_group r)⟩

/-- Row of a profile at a position, with a junk default out of range. -/
def rowAt (p : Profile) (i : ℕ) : PRow := p.rows.getD i defaultPRow

/-- Milestone years of the scenario-generation rescaling loop,
`year_bins = [2025, 2030, 2035, 2040, 2045, 2050]`. -/
def year_bins : List ℤ := [2025, 2030, 2035, 2040, 2045, 2050]

/-- Embedding of `np.digitize(x, bins)` (`right=False`) for a strictly
increasing bin list: the number of bin edges not exceeding `x`. -/
def digitize (x : ℤ) (bins : List ℤ) : ℕ :=
  bins.countP (fun b => decide (b ≤ x))

/-- Source year copied for a target year,
`year_bins[(np.digitize(year, year_bins)-1)]`. -/
def year_select (year : ℤ) : ℤ :=
  year_bins.getD (digitize year year_bins - 1) 0

/-- Per-column rescaling of the copied shape,
`subset_copy[col] * (scenario_annual.at[str(year), col][0] / col_total)`. -/
def rescale_column (vals : List ℚ) (target : ℚ) : List ℚ :=
  vals.map (fun v => v * (target / vals.sum))

/-- Column actually emitted for a target year: the rescaled column truncated
to 8760 rows, `frames.append(subset_copy[:8760])`. -/
def emitted_column (vals : List ℚ) (target : ℚ) : List ℚ :=
  (rescale_column vals target).take 8760

/-- Example control-totals table used by witnesses: one state column `CA`
with `CA = 100` at year 2025 and `CA = 200` at year 2035 for scenario
`central` and subsector group `grp`. -/
def exSI : ScalingInputs :=
  ⟨["CA"],
   [⟨"central", "grp", 2025, fun _ => 100⟩,
    ⟨"central", "grp", 2035, fun _ => 200⟩]⟩

/-- Example hourly profile used by witnesses: two masked `res` rows and one
unmasked `com` row over state columns `CA` and `TX`. -/
def exProfile : Profile :=
  ⟨["CA", "TX"],
   [⟨"residential", "res", "h1", fun st => if st = "CA" then 1 else 5⟩,
    ⟨"residential", "res", "h2", fun st => if st = "CA" then 3 else 0⟩,
    ⟨"commercial", "com", "h3", fun st => if st = "CA" then 7 else 2⟩]⟩

/-- Example factor map touching only `CA`, with factor 6. -/
def exFactors : List (String × ℚ) := [("CA", 6)]

/-- Example profile whose `res` group is all zero. -/
def exProfile0 : Profile :=
  ⟨["CA"],
   [⟨"residential", "res", "h1", fun _ => 0⟩,
    ⟨"residential", "res", "h2", fun _ => 0⟩]⟩

/-- Factor map used by the zero-to-positive witness, factor 4. -/
def exFactors4 : List (String × ℚ) := [("CA", 4)]

/-- Factor map used by the underflow witness, factor 1. -/
def exFactors1 : List (String × ℚ) := [("CA", 1)]

/-- Specialisation to integers of the characterisation of `List.min?`. -/
lemma int_min?_eq_some_iff {a : ℤ} {xs : List ℤ} :
    xs.min? = some a ↔ a ∈ xs ∧ ∀ b ∈ xs, a ≤ b := by
  haveI : Std.Antisymm ((· : ℤ) ≤ ·) := ⟨fun h1 h2 => le_antisymm h1 h2⟩
  exact List.min?_eq_some_iff (fun a => le_refl a) (fun a b => min_choice a b)
    (fun _ _ _ => le_min_iff)

/-- Specialisation to integers of the characterisation of `List.max?`. -/
lemma int_max?_eq_some_iff {a : ℤ} {xs : List ℤ} :
    xs.max? = some a ↔ a ∈ xs ∧ ∀ b ∈ xs, b ≤ a := by
  haveI : Std.Antisymm ((· : ℤ) ≤ ·) := ⟨fun h1 h2 => le_antisymm h1 h2⟩
  exact List.max?_eq_some_iff (fun a => le_refl a) (fun a b => max_choice a b)
    (fun _ _ _ => max_le_iff)

/-- Looking up a key of a map built over the column list yields that
column's value. -/
lemma lookupFactor_map_self (cols : List String) (g : String → ℚ) (s : String)
    (hs : s ∈ cols) :
    lookupFactor (cols.map (fun c => (c, g c))) s = some (g s) := by
  induction cols with
  | nil => cases hs
  | cons c t ih =>
    by_cases hcs : c = s
    · subst hcs
      simp [lookupFactor]
    · have hs' : s ∈ t := by
        rcases List.mem_cons.mp hs with h | h
        · exact absurd h.symm hcs
        · exact h
      simpa [lookupFactor, List.find?_cons, hcs] using ih hs'

/-- Nonemptiness of the distinct-years list follows from nonemptiness of
the filtered control totals. -/
lemma inputYears_ne_nil {si : ScalingInputs} {scenario subsector_group : String}
    (h : (scenarioData si scenario subsector_group).isEmpty = false) :
    inputYears si scenario subsector_group ≠ [] := by
  simp only [inputYears, ne_eq, List.dedup_eq_nil, List.map_eq_nil_iff]
  simpa using h

/-- The earliest input year is a member and a lower bound of the input
years. -/
lemma minYear_spec {si : ScalingInputs} {scenario subsector_group : String}
    (h : inputYears si scenario subsector_group ≠ []) :
    minYear si scenario subsector_group ∈ inputYears si scenario subsector_group ∧
      ∀ y ∈ inputYears si scenario subsector_group, minYear si scenario subsector_group ≤ y := by
  have hne : (inputYears si scenario subsector_group).min? ≠ none := by
    simpa [List.min?_eq_none_iff] using h
  obtain ⟨m, hm⟩ := Option.ne_none_iff_exists'.mp hne
  have hspec := int_min?_eq_some_iff.mp hm
  have heq : minYear si scenario subsector_group = m := by simp [minYear, hm]
  rw [heq]; exact hspec

/-- The latest input year is a member and an upper bound of the input
years. -/
lemma maxYear_spec {si : ScalingInputs} {scenario subsector_group : String}
    (h : inputYears si scenario subsector_group ≠ []) :
    maxYear si scenario subsector_group ∈ inputYears si scenario subsector_group ∧
      ∀ y ∈ inputYears si scenario subsector_group, y ≤ maxYear si scenario subsector_group := by
  have hne : (inputYears si scenario subsector_group).max? ≠ none := by
    simpa [List.max?_eq_none_iff] using h
  obtain ⟨m, hm⟩ := Option.ne_none_iff_exists'.mp hne
  have hspec := int_max?_eq_some_iff.mp hm
  have heq : maxYear si scenario subsector_group = m := by simp [maxYear, hm]
  rw [heq]; exact hspec

/-- A row of the scaled profile is the rewritten corresponding input row. -/
lemma rowAt_scale (p : Profile) (factors : List (String × ℚ)) (subsector_group : String)
    (i : ℕ) (hi : i < p.rows.length) :
    rowAt (scale_profile p factors subsector_group) i
      = applyRow p factors subsector_group (rowAt p i) := by
  simp only [rowAt, scale_profile, List.getD_eq_getElem?_getD, List.getElem?_map,
    List.getElem?_eq_getElem hi]
  rfl

/-- Rows outside the group mask keep their value in every state column. -/
lemma scaledValue_unmasked {p : Profile} {factors : List (String × ℚ)}
    {subsector_group s : String} {r : PRow}
    (hm : maskFn subsector_group r = false) :
    scaledValue p factors subsector_group s r = r.vals s := by
  simp [scaledValue, hm]

/-- State columns absent from the factors map keep their value in every
row. -/
lemma scaledValue_noFactor {p : Profile} {factors : List (String × ℚ)}
    {subsector_group s : String} {r : PRow}
    (hf : lookupFactor factors s = none) :
    scaledValue p factors subsector_group s r = r.vals s := by
  simp [scaledValue, hf]

/-- Value of a masked row in the normal (`group_sum != 0`) scaling case. -/
lemma scaledValue_normal {p : Profile} {factors : List (String × ℚ)}
    {subsector_group s : String} {f : ℚ} {r : PRow}
    (hm : maskFn subsector_group r = true) (hs : s ∈ p.stateCols)
    (hf : lookupFactor factors s = some f) (hS : groupSum p subsector_group s ≠ 0) :
    scaledValue p factors subsector_group s r
      = ((truncQ (r.vals s * (f / groupSum p subsector_group s)) : ℤ) : ℚ) := by
  simp only [scaledValue, hm, hf, if_pos hs, if_true]
  rw [if_neg (fun hc => hS hc.1), if_pos hS]

/-- Value of a masked row in the zero-to-positive case with at least one
masked row. -/
lemma scaledValue_zeroPos {p : Profile} {factors : List (String × ℚ)}
    {subsector_group s : String} {f : ℚ} {r : PRow}
    (hm : maskFn subsector_group r = true) (hs : s ∈ p.stateCols)
    (hf : lookupFactor factors s = some f) (hS : groupSum p subsector_group s = 0)
    (hfpos : 0 < f) (hn : 0 < numRows p subsector_group) :
    scaledValue p factors subsector_group s r
      = ((truncQ (f / ((numRows p subsector_group : ℕ) : ℚ)) : ℤ) : ℚ) := by
  simp only [scaledValue, hm, hf, if_pos hs, if_true]
  rw [if_pos ⟨hS, hfpos⟩, if_pos hn]

/-- The masked rows of the scaled profile are the rewritten masked rows of
the input. -/
lemma filter_scale (p : Profile) (factors : List (String × ℚ)) (subsector_group : String) :
    (scale_profile p factors subsector_group).rows.filter (fun r => maskFn subsector_group r)
      = (p.rows.filter (fun r => maskFn subsector_group r)).map
          (fun r => applyRow p factors subsector_group r) := by
  simp only [scale_profile]
  rw [List.filter_map]
  rfl

/-- The new group sum is the sum of the rewritten values over the masked
input rows. -/
lemma groupSum_scale (p : Profile) (factors : List (String × ℚ)) (subsector_group s : String) :
    groupSum (scale_profile p factors subsector_group) subsector_group s
      = ((p.rows.filter (fun r => maskFn subsector_group r)).map
          (fun r => scaledValue p factors subsector_group s r)).sum := by
  simp only [groupSum, filter_scale, List.map_map]
  rfl

/-- Summing the floors of a list of rationals undershoots the sum. -/
lemma sum_floorcast_le (xs : List ℚ) :
    ((xs.map (fun x => ((⌊x⌋ : ℤ) : ℚ))).sum) ≤ xs.sum := by
  induction xs with
  | nil => simp
  | cons x t ih =>
    simp only [List.map_cons, List.sum_cons]
    exact add_le_add (Int.floor_le x) ih

/-- Summing the floors of a nonempty list of rationals undershoots the sum
by strictly less than the length. -/
lemma sum_lt_floorcast_add_length (xs : List ℚ) (h : xs ≠ []) :
    xs.sum < ((xs.map (fun x => ((⌊x⌋ : ℤ) : ℚ))).sum) + (xs.length : ℚ) := by
  induction xs with
  | nil => exact absurd rfl h
  | cons x t ih =>
    cases t with
    | nil => simpa using Int.lt_floor_add_one x
    | cons y u =>
      have ht := ih (by simp)
      simp only [List.map_cons, List.sum_cons, List.length_cons] at ht ⊢
      push_cast
      push_cast at ht
      have hx := Int.lt_floor_add_one x
      linarith

/-- Sum of a constant over a list. -/
lemma sum_map_const_mul {α : Type} (l : List α) (c : ℚ) :
    (l.map (fun _ => c)).sum = (l.length : ℚ) * c := by
  induction l with
  | nil => simp
  | cons x t ih =>
    simp only [List.map_cons, List.sum_cons, List.length_cons, ih]
    push_cast
    ring

/-- Concrete evaluation of the subsector-group parser on the label used by
the example tables below. -/
lemma subsectorsOf_res : subsectorsOf "res" = ["res"] := by
  have h1 : "res".splitOn "," = ["res"] := by
    simp +decide [String.splitOn, String.splitOnAux]
  have h2 : "res".trim = "res" := by
    simp +decide [String.trim, Substring.trim, Substring.trimLeft, Substring.trimRight,
      Substring.takeWhileAux, Substring.takeRightWhileAux]
  show ("res".splitOn ",").map (fun s => s.trim) = ["res"]
  rw [h1]
  simp [h2]

/-- C10: in every branch (no matching rows, exact year match, clamping, and
interpolation), `interpolate_scaling_factors` returns a map whose key list
is exactly the state columns of the full control-totals table (its columns
after the first three), independent of which states carry data in the
filtered rows. -/
theorem interpolate_factor_keys (si : ScalingInputs) (scenario subsector_group : String)
    (target_year : ℤ) (available_years : List ℤ) :
    ((interpolate_scaling_factors si scenario subsector_group target_year
        available_years).factors).map Prod.fst = si.stateCols := by
  unfold interpolate_scaling_factors
  split
  · simp [Function.comp_def]
  · split
    · simp [Function.comp_def]
    · split
      · simp [Function.comp_def]
      · split <;> simp [Function.comp_def]

/-- C7: when the control-totals table has no rows matching the requested
scenario and subsector group, the resolver emits its warning and returns a
map sending every state column to the identity factor 1.0; being a total
function, it recovers rather than fails. -/
theorem interpolate_no_data (si : ScalingInputs) (scenario subsector_group : String)
    (target_year : ℤ) (available_years : List ℤ) (s : String)
    (hempty : (scenarioData si scenario subsector_group).isEmpty = true)
    (hs : s ∈ si.stateCols) :
    (interpolate_scaling_factors si scenario subsector_group target_year
        available_years).warning = some RWarning.noData ∧
    lookupFactor (interpolate_scaling_factors si scenario subsector_group target_year
        available_years).factors s = some 1 := by
  unfold interpolate_scaling_factors
  rw [if_pos hempty]
  exact ⟨rfl, lookupFactor_map_self si.stateCols (fun _ => 1) s hs⟩

/-- Witness for C7 at a concrete table: scenario `other` has no rows. -/
theorem interpolate_no_data_witness :
    (scenarioData exSI "other" "grp").isEmpty = true ∧ "CA" ∈ exSI.stateCols ∧
    (interpolate_scaling_factors exSI "other" "grp" 2030 []).warning
      = some RWarning.noData ∧
    lookupFactor (interpolate_scaling_factors exSI "other" "grp" 2030 []).factors "CA"
      = some 1 := by
  have h := interpolate_no_data exSI "other" "grp" 2030 [] "CA" (by decide) (by decide)
  exact ⟨by decide, by decide, h.1, h.2⟩

/-- C6: for a target year outside the range of known years for the
scenario and subsector group, the resolver emits a warning and returns the
boundary year's row unchanged: the earliest year's row below the range, the
latest year's row above it; no extrapolation beyond this clamping. -/
theorem interpolate_clamp (si : ScalingInputs) (scenario subsector_group : String)
    (target_year : ℤ) (available_years : List ℤ) (s : String)
    (hne : (scenarioData si scenario subsector_group).isEmpty = false)
    (hs : s ∈ si.stateCols) :
    (target_year < minYear si scenario subsector_group →
      lookupFactor (interpolate_scaling_factors si scenario subsector_group target_year
          available_years).factors s
        = some ((yearRow si scenario subsector_group
            (minYear si scenario subsector_group)).vals s) ∧
      (interpolate_scaling_factors si scenario subsector_group target_year
          available_years).warning = some RWarning.beforeRange) ∧
    (maxYear si scenario subsector_group < target_year →
      lookupFactor (interpolate_scaling_factors si scenario subsector_group target_year
          available_years).factors s
        = some ((yearRow si scenario subsector_group
            (maxYear si scenario subsector_group)).vals s) ∧
      (interpolate_scaling_factors si scenario subsector_group target_year
          available_years).warning = some RWarning.afterRange) := by
  have hyne := inputYears_ne_nil hne
  obtain ⟨hminmem, hminle⟩ := minYear_spec hyne
  obtain ⟨hmaxmem, hmaxle⟩ := maxYear_spec hyne
  constructor
  · intro hlt
    have hnotmem : target_year ∉ inputYears si scenario subsector_group := by
      intro hmem
      have := hminle _ hmem
      omega
    unfold interpolate_scaling_factors
    rw [if_neg (by simp [hne]), if_neg hnotmem, if_pos hlt]
    exact ⟨lookupFactor_map_self _ _ _ hs, rfl⟩
  · intro hgt
    have hnotmem : target_year ∉ inputYears si scenario subsector_group := by
      intro hmem
      have := hmaxle _ hmem
      omega
    have hnotlt : ¬ target_year < minYear si scenario subsector_group := by
      have := hminle _ hmaxmem
      omega
    unfold interpolate_scaling_factors
    rw [if_neg (by simp [hne]), if_neg hnotmem, if_neg hnotlt, if_pos hgt]
    exact ⟨lookupFactor_map_self _ _ _ hs, rfl⟩

/-- Witness for C6 at the concrete table: clamping below 2025 yields the
2025 value 100 with the before-range warning, clamping above 2035 yields
the 2035 value 200 with the after-range warning. -/
theorem interpolate_clamp_witness :
    (scenarioData exSI "central" "grp").isEmpty = false ∧
    lookupFactor (interpolate_scaling_factors exSI "central" "grp" 2020 []).factors "CA"
      = some 100 ∧
    (interpolate_scaling_factors exSI "central" "grp" 2020 []).warning
      = some RWarning.beforeRange ∧
    lookupFactor (interpolate_scaling_factors exSI "central" "grp" 2040 []).factors "CA"
      = some 200 ∧
    (interpolate_scaling_factors exSI "central" "grp" 2040 []).warning
      = some RWarning.afterRange := by
  have h1 := (interpolate_clamp exSI "central" "grp" 2020 [] "CA"
    (by decide) (by decide)).1 (by decide)
  have h2 := (interpolate_clamp exSI "central" "grp" 2040 [] "CA"
    (by decide) (by decide)).2 (by decide)
  exact ⟨by decide, h1.1.trans (by decide), h1.2, h2.1.trans (by decide), h2.2⟩

/-- C1: for a target year strictly between two known years, with `lo` the
largest known year below it and `hi` the smallest known year above it, the
resolver returns for each state the linear interpolation
`lo_value + t * (hi_value - lo_value)` where
`t = (target_year - lo) / (hi - lo)`. -/
theorem interpolate_linear_between (si : ScalingInputs) (scenario subsector_group : String)
    (target_year : ℤ) (available_years : List ℤ) (lo hi : ℤ) (s : String)
    (hlo : lo ∈ inputYears si scenario subsector_group)
    (hhi : hi ∈ inputYears si scenario subsector_group)
    (hlot : lo < target_year) (hthi : target_year < hi)
    (hgap : ∀ y ∈ inputYears si scenario subsector_group, y ≤ lo ∨ hi ≤ y)
    (hs : s ∈ si.stateCols) :
    lookupFactor (interpolate_scaling_factors si scenario subsector_group target_year
        available_years).factors s
      = some ((yearRow si scenario subsector_group lo).vals s
          + (((target_year : ℚ) - (lo : ℚ)) / ((hi : ℚ) - (lo : ℚ)))
            * ((yearRow si scenario subsector_group hi).vals s
                - (yearRow si scenario subsector_group lo).vals s)) := by
  have hyne : inputYears si scenario subsector_group ≠ [] := by
    intro h
    rw [h] at hlo
    cases hlo
  have hne : (scenarioData si scenario subsector_group).isEmpty = false := by
    rcases h : (scenarioData si scenario subsector_group).isEmpty with _ | _
    · rfl
    · exact absurd (by simp [inputYears, List.isEmpty_iff.mp h]) hyne
  have hnotmem : target_year ∉ inputYears si scenario subsector_group := by
    intro hmem
    rcases hgap _ hmem with h | h <;> omega
  obtain ⟨hminmem, hminle⟩ := minYear_spec hyne
  obtain ⟨hmaxmem, hmaxle⟩ := maxYear_spec hyne
  have hnotlt : ¬ target_year < minYear si scenario subsector_group := by
    have := hminle _ hlo
    omega
  have hnotgt : ¬ maxYear si scenario subsector_group < target_year := by
    have := hmaxle _ hhi
    omega
  have hlower : lowerYear si scenario subsector_group target_year = lo := by
    have hmax : ((inputYears si scenario subsector_group).filter
        (fun y => decide (y < target_year))).max? = some lo := by
      apply int_max?_eq_some_iff.mpr
      refine ⟨List.mem_filter.mpr ⟨hlo, by simpa using hlot⟩, ?_⟩
      intro b hb
      obtain ⟨hbmem, hblt⟩ := List.mem_filter.mp hb
      have hblt' : b < target_year := by simpa using hblt
      rcases hgap _ hbmem with h | h
      · exact h
      · omega
    simp [lowerYear, hmax]
  have hupper : upperYear si scenario subsector_group target_year = hi := by
    have hmin : ((inputYears si scenario subsector_group).filter
        (fun y => decide (target_year < y))).min? = some hi := by
      apply int_min?_eq_some_iff.mpr
      refine ⟨List.mem_filter.mpr ⟨hhi, by simpa using hthi⟩, ?_⟩
      intro b hb
      obtain ⟨hbmem, hblt⟩ := List.mem_filter.mp hb
      have hblt' : target_year < b := by simpa using hblt
      rcases hgap _ hbmem with h | h
      · omega
      · exact h
    simp [upperYear, hmin]
  unfold interpolate_scaling_factors
  rw [if_neg (by simp [hne]), if_neg hnotmem, if_neg hnotlt, if_neg hnotgt]
  rw [lookupFactor_map_self _ _ _ hs, hlower, hupper]

/-- Witness for C1: the end-to-end example, control totals `CA = 100` at
2025 and `CA = 200` at 2035, target year 2030, resolves to `CA = 150`. -/
theorem interpolate_linear_between_witness :
    2025 ∈ inputYears exSI "central" "grp" ∧
    2035 ∈ inputYears exSI "central" "grp" ∧
    (2025 : ℤ) < 2030 ∧ (2030 : ℤ) < 2035 ∧
    (∀ y ∈ inputYears exSI "central" "grp", y ≤ 2025 ∨ 2035 ≤ y) ∧
    "CA" ∈ exSI.stateCols ∧
    lookupFactor (interpolate_scaling_factors exSI "central" "grp" 2030 []).factors "CA"
      = some 150 := by
  have h := interpolate_linear_between exSI "central" "grp" 2030 [] 2025 2035 "CA"
    (by decide) (by decide) (by decide) (by decide) (by decide) (by decide)
  refine ⟨by decide, by decide, by decide, by decide, by decide, by decide, ?_⟩
  rw [h]
  have e1 : (yearRow exSI "central" "grp" 2025).vals "CA" = 100 := rfl
  have e2 : (yearRow exSI "central" "grp" 2035).vals "CA" = 200 := rfl
  rw [e1, e2]
  simp only [Option.some.injEq]
  norm_num

/-- On nonnegative arguments, truncation toward zero is the floor. -/
lemma truncQ_of_nonneg {q : ℚ} (h : 0 ≤ q) : truncQ q = ⌊q⌋ := if_pos h

/-- C2: for every state present in the factors map whose group-mask sum is
non-zero, `scale_profile` replaces each selected row's value `v` by the
integer truncation toward zero (not round-to-nearest) of
`v * factor / group_sum`. -/
theorem scale_normal_row (p : Profile) (factors : List (String × ℚ))
    (subsector_group s : String) (f : ℚ) (i : ℕ)
    (hs : s ∈ p.stateCols) (hf : lookupFactor factors s = some f)
    (hS : groupSum p subsector_group s ≠ 0)
    (hi : i < p.rows.length)
    (hm : maskFn subsector_group (rowAt p i) = true) :
    (rowAt (scale_profile p factors subsector_group) i).vals s
      = ((truncQ ((rowAt p i).vals s * (f / groupSum p subsector_group s)) : ℤ) : ℚ) := by
  rw [rowAt_scale p factors subsector_group i hi]
  exact scaledValue_normal hm hs hf hS

/-- Witness for C2 at a concrete profile: masked values 1 and 3 in `CA`,
factor 6, group sum 4, ratio 3/2; row 0 becomes `trunc(1.5) = 1`. -/
theorem scale_normal_row_witness :
    "CA" ∈ exProfile.stateCols ∧ lookupFactor exFactors "CA" = some 6 ∧
    groupSum exProfile "res" "CA" ≠ 0 ∧ 0 < exProfile.rows.length ∧
    maskFn "res" (rowAt exProfile 0) = true ∧
    (rowAt (scale_profile exProfile exFactors "res") 0).vals "CA" = 1 := by
  have hgs : groupSum exProfile "res" "CA" = 4 := by
    simp +decide [groupSum, maskFn, subsectorsOf_res, exProfile, List.filter]
    norm_num
  have hm : maskFn "res" (rowAt exProfile 0) = true := by
    simp only [maskFn, subsectorsOf_res]
    decide
  have hSne : groupSum exProfile "res" "CA" ≠ 0 := by
    rw [hgs]
    norm_num
  have h := scale_normal_row exProfile exFactors "res" "CA" 6 0 (by decide) (by decide)
    hSne (by decide) hm
  refine ⟨by decide, by decide, hSne, by decide, hm, ?_⟩
  rw [h, hgs]
  have e0 : (rowAt exProfile 0).vals "CA" = 1 := rfl
  rw [e0]
  rw [truncQ_of_nonneg (by norm_num)]
  norm_num

/-- A masked row at a valid index forces a positive masked-row count. -/
lemma numRows_pos_of_mask {p : Profile} {subsector_group : String} {i : ℕ}
    (hi : i < p.rows.length) (hm : maskFn subsector_group (rowAt p i) = true) :
    0 < numRows p subsector_group := by
  have hmem : rowAt p i ∈ p.rows := by
    simp only [rowAt, List.getD_eq_getElem?_getD, List.getElem?_eq_getElem hi, Option.getD_some]
    exact List.getElem_mem hi
  have hfil : rowAt p i ∈ p.rows.filter (fun r => maskFn subsector_group r) :=
    List.mem_filter.mpr ⟨hmem, hm⟩
  have hne : p.rows.filter (fun r => maskFn subsector_group r) ≠ [] :=
    List.ne_nil_of_mem hfil
  simpa [numRows] using List.length_pos.mpr hne

/-- C3: zero-to-positive case: when the group-mask sum is 0 and the factor
is positive, every selected row is set to the truncation of
`factor / row_count` (so the new group sum is `row_count` times that
value); when there are no selected rows the column is left unchanged. -/
theorem scale_zero_to_positive (p : Profile) (factors : List (String × ℚ))
    (subsector_group s : String) (f : ℚ) (i : ℕ)
    (hs : s ∈ p.stateCols) (hf : lookupFactor factors s = some f)
    (hS : groupSum p subsector_group s = 0) (hfpos : 0 < f)
    (hi : i < p.rows.length) :
    (maskFn subsector_group (rowAt p i) = true →
      (rowAt (scale_profile p factors subsector_group) i).vals s
        = ((truncQ (f / (numRows p subsector_group : ℚ)) : ℤ) : ℚ)) ∧
    (numRows p subsector_group = 0 →
      (rowAt (scale_profile p factors subsector_group) i).vals s = (rowAt p i).vals s) ∧
    groupSum (scale_profile p factors subsector_group) subsector_group s
      = (numRows p subsector_group : ℚ)
          * ((truncQ (f / (numRows p subsector_group : ℚ)) : ℤ) : ℚ) := by
  refine ⟨?_, ?_, ?_⟩
  · intro hm
    have hn := numRows_pos_of_mask hi hm
    rw [rowAt_scale p factors subsector_group i hi]
    exact scaledValue_zeroPos hm hs hf hS hfpos hn
  · intro hn0
    rw [rowAt_scale p factors subsector_group i hi]
    rcases hmask : maskFn subsector_group (rowAt p i) with _ | _
    · exact scaledValue_unmasked hmask
    · exact absurd (numRows_pos_of_mask hi hmask) (by omega)
  · rcases Nat.eq_zero_or_pos (numRows p subsector_group) with hn0 | hn
    · have hfil : p.rows.filter (fun r => maskFn subsector_group r) = [] :=
        List.length_eq_zero.mp hn0
      rw [groupSum_scale, hfil, hn0]
      simp
    · rw [groupSum_scale]
      have hc : ∀ r ∈ p.rows.filter (fun r => maskFn subsector_group r),
          scaledValue p factors subsector_group s r
            = ((truncQ (f / (numRows p subsector_group : ℚ)) : ℤ) : ℚ) := by
        intro r hr
        obtain ⟨hrmem, hrm⟩ := List.mem_filter.mp hr
        exact scaledValue_zeroPos hrm hs hf hS hfpos hn
      rw [List.map_congr_left hc, sum_map_const_mul]
      rfl

/-- Witness for C3: all-zero group, factor 4 over 2 masked rows; each row
becomes 2 and the new group sum is 4. -/
theorem scale_zero_to_positive_witness :
    "CA" ∈ exProfile0.stateCols ∧ lookupFactor exFactors4 "CA" = some 4 ∧
    groupSum exProfile0 "res" "CA" = 0 ∧ (0:ℚ) < 4 ∧ 0 < exProfile0.rows.length ∧
    maskFn "res" (rowAt exProfile0 0) = true ∧
    (rowAt (scale_profile exProfile0 exFactors4 "res") 0).vals "CA" = 2 ∧
    groupSum (scale_profile exProfile0 exFactors4 "res") "res" "CA" = 4 := by
  have hgs : groupSum exProfile0 "res" "CA" = 0 := by
    simp +decide [groupSum, maskFn, subsectorsOf_res, exProfile0, List.filter]
  have hnum : numRows exProfile0 "res" = 2 := by
    simp only [numRows, maskFn, subsectorsOf_res]
    decide
  have hm : maskFn "res" (rowAt exProfile0 0) = true := by
    simp only [maskFn, subsectorsOf_res]
    decide
  have h := scale_zero_to_positive exProfile0 exFactors4 "res" "CA" 4 0 (by decide)
    (by decide) hgs (by norm_num) (by decide)
  refine ⟨by decide, by decide, hgs, by norm_num, by decide, hm, ?_, ?_⟩
  · rw [h.1 hm, hnum, truncQ_of_nonneg (by norm_num)]
    norm_num
  · rw [h.2.2, hnum, truncQ_of_nonneg (by norm_num)]
    norm_num

/-- C9: in the zero-to-positive path with `0 < factor < row_count`, every
selected row is set to 0, so the group stays all zero and the whole target
total is lost. -/
theorem scale_zero_pos_underflow (p : Profile) (factors : List (String × ℚ))
    (subsector_group s : String) (f : ℚ) (i : ℕ)
    (hs : s ∈ p.stateCols) (hf : lookupFactor factors s = some f)
    (hS : groupSum p subsector_group s = 0) (hfpos : 0 < f)
    (hflt : f < (numRows p subsector_group : ℚ))
    (hi : i < p.rows.length) :
    (maskFn subsector_group (rowAt p i) = true →
      (rowAt (scale_profile p factors subsector_group) i).vals s = 0) ∧
    groupSum (scale_profile p factors subsector_group) subsector_group s = 0 := by
  have hn : 0 < numRows p subsector_group := by
    rcases Nat.eq_zero_or_pos (numRows p subsector_group) with h0 | h
    · exfalso
      rw [h0] at hflt
      simp at hflt
      linarith
    · exact h
  have hnQ : (0:ℚ) < (numRows p subsector_group : ℚ) := by exact_mod_cast hn
  have hq0 : 0 ≤ f / (numRows p subsector_group : ℚ) := le_of_lt (div_pos hfpos hnQ)
  have htr : truncQ (f / (numRows p subsector_group : ℚ)) = 0 := by
    rw [truncQ_of_nonneg hq0, Int.floor_eq_zero_iff]
    exact Set.mem_Ico.mpr ⟨hq0, (div_lt_one hnQ).mpr hflt⟩
  constructor
  · intro hm
    rw [rowAt_scale p factors subsector_group i hi]
    have hv := scaledValue_zeroPos hm hs hf hS hfpos hn
    rw [htr] at hv
    exact hv.trans (by norm_num)
  · rw [groupSum_scale]
    have hc : ∀ r ∈ p.rows.filter (fun r => maskFn subsector_group r),
        scaledValue p factors subsector_group s r = 0 := by
      intro r hr
      obtain ⟨hrmem, hrm⟩ := List.mem_filter.mp hr
      rw [scaledValue_zeroPos hrm hs hf hS hfpos hn, htr]
      norm_num
    rw [List.map_congr_left hc, sum_map_const_mul, mul_zero]

/-- Witness for C9: all-zero group, factor 1 over 2 masked rows; every
selected row stays 0 and the group sum stays 0. -/
theorem scale_zero_pos_underflow_witness :
    "CA" ∈ exProfile0.stateCols ∧ lookupFactor exFactors1 "CA" = some 1 ∧
    groupSum exProfile0 "res" "CA" = 0 ∧ (0:ℚ) < 1 ∧
    (1:ℚ) < (numRows exProfile0 "res" : ℚ) ∧ 0 < exProfile0.rows.length ∧
    (rowAt (scale_profile exProfile0 exFactors1 "res") 0).vals "CA" = 0 ∧
    groupSum (scale_profile exProfile0 exFactors1 "res") "res" "CA" = 0 := by
  have hgs : groupSum exProfile0 "res" "CA" = 0 := by
    simp +decide [groupSum, maskFn, subsectorsOf_res, exProfile0, List.filter]
  have hnum : numRows exProfile0 "res" = 2 := by
    simp only [numRows, maskFn, subsectorsOf_res]
    decide
  have hm : maskFn "res" (rowAt exProfile0 0) = true := by
    simp only [maskFn, subsectorsOf_res]
    decide
  have hlt : (1:ℚ) < (numRows exProfile0 "res" : ℚ) := by
    rw [hnum]
    norm_num
  have h := scale_zero_pos_underflow exProfile0 exFactors1 "res" "CA" 1 0 (by decide)
    (by decide) hgs (by norm_num) hlt (by decide)
  exact ⟨by decide, by decide, hgs, by norm_num, hlt, by decide, h.1 hm, h.2⟩

/-- C4: for a state in the factors map with non-negative factor (the
`ScalingFactorMap` invariant) whose group-mask sum over non-negative input
values is non-zero, the new group sum lands within the truncation error of
the target: `factor - row_count < new_sum <= factor`. -/
theorem scale_group_sum_close (p : Profile) (factors : List (String × ℚ))
    (subsector_group s : String) (f : ℚ)
    (hs : s ∈ p.stateCols) (hf : lookupFactor factors s = some f)
    (hf0 : 0 ≤ f)
    (hvals : ∀ r ∈ p.rows, maskFn subsector_group r = true → 0 ≤ r.vals s)
    (hS : groupSum p subsector_group s ≠ 0) :
    f - (numRows p subsector_group : ℚ)
        < groupSum (scale_profile p factors subsector_group) subsector_group s ∧
    groupSum (scale_profile p factors subsector_group) subsector_group s ≤ f := by
  have h0 : 0 ≤ groupSum p subsector_group s := by
    unfold groupSum
    apply List.sum_nonneg
    intro x hx
    obtain ⟨r, hr, rfl⟩ := List.mem_map.mp hx
    exact hvals r (List.mem_filter.mp hr).1 (List.mem_filter.mp hr).2
  have hc0 : 0 ≤ f / groupSum p subsector_group s := div_nonneg hf0 h0
  have hmap : groupSum (scale_profile p factors subsector_group) subsector_group s
      = (((p.rows.filter (fun r => maskFn subsector_group r)).map
          (fun r => r.vals s * (f / groupSum p subsector_group s))).map
            (fun x => ((⌊x⌋ : ℤ) : ℚ))).sum := by
    rw [groupSum_scale, List.map_map]
    apply congrArg List.sum
    apply List.map_congr_left
    intro r hr
    obtain ⟨hrmem, hrm⟩ := List.mem_filter.mp hr
    rw [scaledValue_normal hrm hs hf hS,
      truncQ_of_nonneg (mul_nonneg (hvals r hrmem hrm) hc0)]
    rfl
  have hxs : ((p.rows.filter (fun r => maskFn subsector_group r)).map
      (fun r => r.vals s * (f / groupSum p subsector_group s))).sum = f := by
    rw [List.sum_map_mul_right]
    have hgs : ((p.rows.filter (fun r => maskFn subsector_group r)).map
        (fun r => r.vals s)).sum = groupSum p subsector_group s := rfl
    rw [hgs, mul_comm, div_mul_cancel₀ f hS]
  have hfilne : p.rows.filter (fun r => maskFn subsector_group r) ≠ [] := by
    intro hfil
    apply hS
    unfold groupSum
    rw [hfil]
    rfl
  have hne : ((p.rows.filter (fun r => maskFn subsector_group r)).map
      (fun r => r.vals s * (f / groupSum p subsector_group s))) ≠ [] := by
    simpa using hfilne
  have hlen : (((p.rows.filter (fun r => maskFn subsector_group r)).map
      (fun r => r.vals s * (f / groupSum p subsector_group s)))).length
        = numRows p subsector_group := by
    simp [numRows]
  constructor
  · have hlow := sum_lt_floorcast_add_length _ hne
    rw [hxs, hlen] at hlow
    rw [hmap]
    linarith
  · have hup := sum_floorcast_le ((p.rows.filter (fun r => maskFn subsector_group r)).map
      (fun r => r.vals s * (f / groupSum p subsector_group s)))
    rw [hxs] at hup
    rw [hmap]
    exact hup

/-- Witness for C4 at the concrete profile: factor 6 over group sum 4 with
2 masked rows yields a new group sum of 5, inside `(6 - 2, 6]`. -/
theorem scale_group_sum_close_witness :
    "CA" ∈ exProfile.stateCols ∧ lookupFactor exFactors "CA" = some 6 ∧ (0:ℚ) ≤ 6 ∧
    groupSum exProfile "res" "CA" ≠ 0 ∧
    6 - (numRows exProfile "res" : ℚ)
        < groupSum (scale_profile exProfile exFactors "res") "res" "CA" ∧
    groupSum (scale_profile exProfile exFactors "res") "res" "CA" ≤ 6 := by
  have hgs : groupSum exProfile "res" "CA" = 4 := by
    simp +decide [groupSum, maskFn, subsectorsOf_res, exProfile, List.filter]
    all_goals norm_num
  have hSne : groupSum exProfile "res" "CA" ≠ 0 := by
    rw [hgs]
    norm_num
  have hvals : ∀ r ∈ exProfile.rows, maskFn "res" r = true → 0 ≤ r.vals "CA" := by
    intro r hr hmr
    fin_cases hr <;> decide
  have h := scale_group_sum_close exProfile exFactors "res" "CA" 6 (by decide) (by decide)
    (by norm_num) hvals hSne
  exact ⟨by decide, by decide, by norm_num, hSne, h.1, h.2⟩

/-- C5: `scale_profile` is pure (the input table is a value the function
never mutates; the source copies the dataframe before writing) and frames
its effect to the group: the schema and row count are preserved, the key
columns of every row are preserved, every row outside the group-mask keeps
all its state values, and every state column absent from the factors map is
untouched in every row. -/
theorem scale_frame (p : Profile) (factors : List (String × ℚ)) (subsector_group : String)
    (i : ℕ) (s : String) (hi : i < p.rows.length) :
    (scale_profile p factors subsector_group).stateCols = p.stateCols ∧
    (scale_profile p factors subsector_group).rows.length = p.rows.length ∧
    (rowAt (scale_profile p factors subsector_group) i).sector = (rowAt p i).sector ∧
    (rowAt (scale_profile p factors subsector_group) i).subsector = (rowAt p i).subsector ∧
    (rowAt (scale_profile p factors subsector_group) i).weather_datetime
      = (rowAt p i).weather_datetime ∧
    (maskFn subsector_group (rowAt p i) = false →
      (rowAt (scale_profile p factors subsector_group) i).vals s = (rowAt p i).vals s) ∧
    (lookupFactor factors s = none →
      (rowAt (scale_profile p factors subsector_group) i).vals s = (rowAt p i).vals s) := by
  rw [rowAt_scale p factors subsector_group i hi]
  refine ⟨rfl, by simp [scale_profile], rfl, rfl, rfl, ?_, ?_⟩
  · intro hm
    exact scaledValue_unmasked hm
  · intro hfn
    exact scaledValue_noFactor hfn

/-- Witness for C5: the unmasked `com` row keeps its `CA` value, and the
`TX` column (absent from the factor map) keeps its value in a masked row. -/
theorem scale_frame_witness :
    2 < exProfile.rows.length ∧
    lookupFactor exFactors "TX" = none ∧
    maskFn "res" (rowAt exProfile 2) = false ∧
    (scale_profile exProfile exFactors "res").stateCols = exProfile.stateCols ∧
    (scale_profile exProfile exFactors "res").rows.length = exProfile.rows.length ∧
    (rowAt (scale_profile exProfile exFactors "res") 2).subsector
      = (rowAt exProfile 2).subsector ∧
    (rowAt (scale_profile exProfile exFactors "res") 2).vals "CA"
      = (rowAt exProfile 2).vals "CA" ∧
    (rowAt (scale_profile exProfile exFactors "res") 0).vals "TX"
      = (rowAt exProfile 0).vals "TX" := by
  have hm2 : maskFn "res" (rowAt exProfile 2) = false := by
    simp only [maskFn, subsectorsOf_res]
    decide
  have h2 := scale_frame exProfile exFactors "res" 2 "CA" (by decide)
  have h0 := scale_frame exProfile exFactors "res" 0 "TX" (by decide)
  exact ⟨by decide, by decide, hm2, h2.1, h2.2.1, h2.2.2.2.1, h2.2.2.2.2.2.1 hm2,
    h0.2.2.2.2.2.2 (by decide)⟩

/-- C8: for every target year in the projection horizon 2025 to 2050, the
cross-year normalizer copies the shape of the greatest milestone year not
exceeding the target (`year_bins[np.digitize(year, year_bins)-1]`),
truncates the result to exactly 8760 rows, and rescales each column so that
its annual sum in the emitted per-year table equals the interpolated annual
total for that target year.  The hypotheses are the data-model invariants:
the copied shape has exactly 8760 rows and a non-zero column total. -/
theorem cross_year_rescale (year : ℤ) (vals : List ℚ) (target : ℚ)
    (h1 : 2025 ≤ year) (h2 : year ≤ 2050)
    (hlen : vals.length = 8760) (hsum : vals.sum ≠ 0) :
    (year_select year ∈ year_bins ∧ year_select year ≤ year ∧
      ∀ b ∈ year_bins, b ≤ year → b ≤ year_select year) ∧
    (emitted_column vals target).length = 8760 ∧
    (emitted_column vals target).sum = target := by
  refine ⟨?_, ?_, ?_⟩
  · interval_cases year <;> decide
  · simp [emitted_column, rescale_column, hlen]
  · have hfull : (rescale_column vals target).length ≤ 8760 := by
      simp [rescale_column, hlen]
    rw [emitted_column, List.take_of_length_le hfull]
    rw [rescale_column, List.sum_map_mul_right vals (fun v => v) (target / vals.sum)]
    rw [List.map_id']
    rw [mul_comm, div_mul_cancel₀ target hsum]

/-- Witness for C8 at year 2032 over a constant 8760-row column: the copied
milestone is 2030 and the emitted column sums to the target 500. -/
theorem cross_year_rescale_witness :
    (2025 : ℤ) ≤ 2032 ∧ (2032 : ℤ) ≤ 2050 ∧
    (List.replicate 8760 (1 : ℚ)).length = 8760 ∧
    (List.replicate 8760 (1 : ℚ)).sum ≠ 0 ∧
    year_select 2032 ∈ year_bins ∧ year_select 2032 ≤ 2032 ∧
    (emitted_column (List.replicate 8760 (1 : ℚ)) 500).length = 8760 ∧
    (emitted_column (List.replicate 8760 (1 : ℚ)) 500).sum = 500 := by
  have hlen : (List.replicate 8760 (1 : ℚ)).length = 8760 := by
    rw [List.length_replicate]
  have hsum : (List.replicate 8760 (1 : ℚ)).sum ≠ 0 := by
    rw [List.sum_replicate, nsmul_eq_mul, mul_one]
    norm_num
  have h := cross_year_rescale 2032 (List.replicate 8760 (1 : ℚ)) 500
    (by norm_num) (by norm_num) hlen hsum
  exact ⟨by norm_num, by norm_num, hlen, hsum, h.1.1, h.1.2.1, h.2.1, h.2.2⟩
